import Mathlib

/-!
Verification of the API-connectivity resilience layer of the
filemanagements repository.

The repository ships two variants of the same client module
(`src/unnamed/part_000` and `src/unnamed/part_001`).  Both are embedded
below, each in its own namespace, as pure Lean functions over an explicit
network oracle:

* `axios.get` on a URL is modelled by an oracle
  `String → Nat → Except JsError HttpResponse`, mapping the requested URL
  and the (0- or 1-based) attempt counter of the enclosing loop to either
  a resolved HTTP response (`.ok`) or a rejection (`.error`), exactly the
  two outcomes a single `await axios.get(...)` can have;
* `await new Promise(resolve => setTimeout(resolve, d))` is a pure delay;
  each function additionally returns a `Trace` recording how many probe
  attempts were performed and which delays were awaited, so that the
  retry/backoff schedule is part of the observable behaviour;
* the module-level mutable slots (`cachedApiUrl`, `apiUrlChecked`,
  `apiInstance`) become explicit state records threaded through the
  functions;
* JavaScript truthiness of a possibly-null string is `jsTruthy`, and
  `a || b` on strings is `jsOr`.

The `for` loops are translated by structural recursion on the number of
remaining iterations (`fuel`), keeping the loop counter `i` as a separate
argument so that the source tests (`i === retries - 1`,
`attempt === maxRetries`, `attempt < maxRetries`) appear verbatim; every
top-level entry point starts the loop with `fuel = iterationCount`, so
`fuel > 0` coincides with the source guard `i < retries`.
-/

namespace FileMgmt

/-- Body of a JSON HTTP response; only the fields the client inspects
(`data.status` and `data.message`) are modelled. -/
structure RespBody where
  status : Option String
  message : Option String
deriving DecidableEq, Repr

/-- An axios HTTP response: numeric status and optional parsed body. -/
structure HttpResponse where
  status : Nat
  data : Option RespBody
deriving DecidableEq, Repr

/-- An axios error object: the error code (absent for some errors), the
message, the HTTP response when the server answered, and the
`userMessage` field the interceptors attach (absent until attached). -/
structure JsError where
  code : Option String
  message : String
  response : Option HttpResponse
  userMessage : Option String
deriving DecidableEq, Repr

/-- Result object of `checkApiHealth`: the source returns
three literal shapes, namely a success record with a `url` field, a
failure record with an `error` field, and a bare failure record; the
absent fields are `none`. -/
structure HealthResult where
  success : Bool
  url : Option String
  error : Option JsError
deriving DecidableEq, Repr

/-- Observable schedule of one retry loop: number of probe attempts
performed and the awaited backoff delays (ms), in order. -/
structure Trace where
  attempts : Nat
  sleeps : List Nat
deriving DecidableEq, Repr

/-- Emptiness of a string through its character list (semantically the
same as the byte-based test, but reducible by the kernel). -/
def strEmpty (s : String) : Bool := s.data.isEmpty

/-- JavaScript `s.trim()`: drop leading and trailing whitespace. -/
def trimStr (s : String) : String :=
  String.mk (((s.data.dropWhile Char.isWhitespace).reverse.dropWhile Char.isWhitespace).reverse)

/-- JavaScript truthiness of a nullable string. -/
def jsTruthy : Option String → Bool
  | none => false
  | some s => !strEmpty s

/-- Extract a string from a nullable string (used only under a
`jsTruthy` guard, mirroring the source which dereferences only after a
truthiness check). -/
def jsGet : Option String → String
  | none => ""
  | some s => s

/-- JavaScript `a || b` where `a` is a nullable string and `b` a string. -/
def jsOr (a : Option String) (b : String) : String :=
  match a with
  | none => b
  | some s => if strEmpty s then b else s

/-- `s.replace(/\/+$/, '')`: drop every trailing slash. -/
def stripTrailingSlashes (s : String) : String :=
  String.mk ((s.data.reverse.dropWhile (fun c => c == '/')).reverse)

/-- Whether a string ends with a slash character. -/
def endsInSlash (s : String) : Bool :=
  s.data.getLast? == some '/'

/-- Whether `pat` occurs as a contiguous substring of `s` (character
lists). -/
def containsSubList : List Char → List Char → Bool
  | s, pat =>
    pat.isPrefixOf s ||
      match s with
      | [] => false
      | _ :: rest => containsSubList rest pat

/-- Whether `pat` occurs as a contiguous substring of `s`; models the
JavaScript `String.prototype.includes`. -/
def containsSub (s pat : String) : Bool :=
  containsSubList s.data pat.data

/-- First-occurrence replacement, modelling the JavaScript
`String.prototype.replace` with a string pattern: replace the first
occurrence of `pat` (at index 0 when `pat` is empty) by `rep`. -/
def replaceFirstList (pat rep : List Char) : List Char → List Char
  | [] => []
  | c :: rest =>
    if pat.isPrefixOf (c :: rest) then rep ++ (c :: rest).drop pat.length
    else c :: replaceFirstList pat rep rest

/-- JavaScript `s.replace(pat, rep)` for a string pattern. -/
def replaceFirst (s pat rep : String) : String :=
  if strEmpty pat then String.mk (rep.data ++ s.data)
  else String.mk (replaceFirstList pat.data rep.data s.data)

/-- A delay awaited through `new Promise(resolve => setTimeout(resolve, ms))`:
it resolves unconditionally, so in the exception monad it never throws. -/
def sleepE (_ms : Nat) : Except JsError Unit := .ok ()

/-- JavaScript `try { body } catch (e) { handler }` in the exception
monad. -/
def tryCatchE {α : Type} (body : Except JsError α) (handler : JsError → Except JsError α) :
    Except JsError α :=
  match body with
  | .ok a => .ok a
  | .error e => handler e

/-- The backoff schedule `[base * (i + 1), base * (i + 2), ...]` of
length `m`: the delays a retry loop awaits when every attempt starting
at counter `i` fails. -/
def backoffSleeps (base i : Nat) : Nat → List Nat
  | 0 => []
  | m + 1 => base * (i + 1) :: backoffSleeps base (i + 1) m

/-- The transport-error classification of the stricter variant:
`error.code` is `ERR_NAME_NOT_RESOLVED`, `ERR_NETWORK` or
`ECONNABORTED`. -/
def isTransportCode (c : Option String) : Bool :=
  c == some "ERR_NAME_NOT_RESOLVED" || c == some "ERR_NETWORK" ||
    c == some "ECONNABORTED"

/-- The success test applied to a health-probe response:
`response.data && response.data.status === 'ok'`. -/
def okBody (r : HttpResponse) : Bool :=
  match r.data with
  | some d => d.status == some "ok"
  | none => false

/-- The module-level URL cache: slots `cachedApiUrl` and
`apiUrlChecked`. -/
structure UrlState where
  cachedApiUrl : Option String
  apiUrlChecked : Bool
deriving DecidableEq, Repr

/-- A network oracle: outcome of one `await axios.get(url, ...)`, keyed
by the requested URL and the attempt counter of the enclosing loop. -/
def Oracle : Type := String → Nat → Except JsError HttpResponse

end FileMgmt

namespace FileMgmt.Part000

/-!  Embedding of `src/unnamed/part_000` (the variant that normalizes
the configured URL and classifies transport errors separately). -/

/-- `getApiUrl` of part_000: trim the configured URL and strip trailing
slashes when it is truthy with non-blank content, otherwise fall back to
the local default. -/
def getApiUrl (envUrl : Option String) : String :=
  let localUrl := "http://localhost:5000"
  match envUrl with
  | some s =>
    if !strEmpty s && !strEmpty (trimStr s) then stripTrailingSlashes (trimStr s) else localUrl
  | none => localUrl

/-- `const cleanUrl = url ? url.replace(/\/+$/, '') : url` inside
part_000 `checkApiHealth`. -/
def cleanUrlOf (url : Option String) : Option String :=
  match url with
  | some u => if !strEmpty u then some (stripTrailingSlashes u) else some u
  | none => none

/-- `const healthUrl = cleanUrl ? cleanUrl + '/api/health' : '/api/health'`
inside part_000 `checkApiHealth`. -/
def healthUrlOf (url : Option String) : String :=
  match cleanUrlOf url with
  | some c => if !strEmpty c then c ++ "/api/health" else "/api/health"
  | none => "/api/health"

/-- Loop body of part_000 `checkApiHealth` (`for (let i = 0; i < retries;
i++)`), by recursion on the remaining iteration count.  Try-block: probe
the health URL; a body with `status: "ok"` returns success; otherwise
fall through to the next iteration with no delay.  Catch-block: a
transport-classified error returns the failure on the last attempt and
otherwise awaits `2000 * (i + 1)` ms; any other error returns the
failure on the last attempt and otherwise awaits `1000 * (i + 1)` ms.
Falling off the loop returns the bare failure record. -/
def checkApiHealthGo (oracle : Oracle) (url : Option String) (retries : Nat) :
    Nat → Nat → HealthResult × Trace
  | _, 0 => ({ success := false, url := none, error := none }, { attempts := 0, sleeps := [] })
  | i, fuel + 1 =>
    match oracle (healthUrlOf url) i with
    | .ok response =>
      if okBody response then
        ({ success := true, url := url, error := none }, { attempts := 1, sleeps := [] })
      else
        let rest := checkApiHealthGo oracle url retries (i + 1) fuel
        (rest.1, { attempts := rest.2.attempts + 1, sleeps := rest.2.sleeps })
    | .error err =>
      if isTransportCode err.code then
        if i = retries - 1 then
          ({ success := false, url := none, error := some err }, { attempts := 1, sleeps := [] })
        else
          let rest := checkApiHealthGo oracle url retries (i + 1) fuel
          (rest.1, { attempts := rest.2.attempts + 1, sleeps := 2000 * (i + 1) :: rest.2.sleeps })
      else
        if i = retries - 1 then
          ({ success := false, url := none, error := some err }, { attempts := 1, sleeps := [] })
        else
          let rest := checkApiHealthGo oracle url retries (i + 1) fuel
          (rest.1, { attempts := rest.2.attempts + 1, sleeps := 1000 * (i + 1) :: rest.2.sleeps })

/-- part_000 `checkApiHealth(url, retries)` (the source defaults
`retries` to 3 at the call sites that omit it). -/
def checkApiHealth (oracle : Oracle) (url : Option String) (retries : Nat) :
    HealthResult × Trace :=
  checkApiHealthGo oracle url retries 0 retries

/-- part_000 `getApiUrlWithFallback`: return the cached URL when the
cache slot is truthy and the checked flag is set; otherwise resolve via
`getApiUrl` and fill both slots. -/
def getApiUrlWithFallback (envUrl : Option String) (st : UrlState) : String × UrlState :=
  if jsTruthy st.cachedApiUrl && st.apiUrlChecked then (jsGet st.cachedApiUrl, st)
  else
    let apiUrl := getApiUrl envUrl
    (apiUrl, { cachedApiUrl := some apiUrl, apiUrlChecked := true })

/-- Error branch of the part_000 response interceptor: attach a derived
`userMessage` keyed off the error classification (network or DNS,
timeout, HTTP error response, anything else). -/
def attachUserMessage (e : JsError) : JsError :=
  let connectMsg := "Cannot connect to server. Please check your connection and try again."
  let timeoutMsg := "Upload timeout: The server is taking too long to respond. This may happen if the service is waking up. Please try again."
  if e.code == some "ERR_NETWORK" || e.code == some "ERR_NAME_NOT_RESOLVED" then
    { e with userMessage := some connectMsg }
  else if e.code == some "ECONNABORTED" && containsSub e.message "timeout" then
    { e with userMessage := some timeoutMsg }
  else
    match e.response with
    | some r =>
      let fromData := match r.data with | some d => d.message | none => none
      { e with userMessage := some (jsOr fromData e.message) }
    | none =>
      { e with userMessage := some (jsOr (some e.message) "An unexpected error occurred") }

/-- The classification contract of the part_000 interceptor, as a
predicate on the error object it rejects: network or DNS errors carry
the connectivity message, timeout errors the waking-up message, HTTP
error responses the server-provided message or the error message,
anything else the error message or the generic fallback. -/
def wellFormedUserMessage (e : JsError) : Prop :=
  if (e.code == some "ERR_NETWORK" || e.code == some "ERR_NAME_NOT_RESOLVED") = true then
    e.userMessage = some "Cannot connect to server. Please check your connection and try again."
  else if (e.code == some "ECONNABORTED" && containsSub e.message "timeout") = true then
    e.userMessage = some "Upload timeout: The server is taking too long to respond. This may happen if the service is waking up. Please try again."
  else
    match e.response with
    | some r =>
      e.userMessage =
        some (jsOr (match r.data with | some d => d.message | none => none) e.message)
    | none => e.userMessage = some (jsOr (some e.message) "An unexpected error occurred")

/-- One iteration of part_000 `checkApiHealth` in the exception monad:
the try-block awaits the probe (which may throw) and tests the body; the
catch-block classifies the caught error and either produces the failure
result (last attempt) or awaits the backoff delay.  `some result` means
the iteration returned, `none` that it fell through to the next one. -/
def attemptE (oracle : Oracle) (url : Option String) (i retries : Nat) :
    Except JsError (Option HealthResult) :=
  tryCatchE
    (do
      let response ← oracle (healthUrlOf url) i
      if okBody response then pure (some { success := true, url := url, error := none })
      else pure none)
    (fun err =>
      if isTransportCode err.code then
        if i = retries - 1 then pure (some { success := false, url := none, error := some err })
        else do
          sleepE (2000 * (i + 1))
          pure none
      else
        if i = retries - 1 then pure (some { success := false, url := none, error := some err })
        else do
          sleepE (1000 * (i + 1))
          pure none)

/-- part_000 `checkApiHealth` in the exception monad (loop by recursion
on the remaining iterations, as in `checkApiHealthGo`). -/
def checkApiHealthGoE (oracle : Oracle) (url : Option String) (retries : Nat) :
    Nat → Nat → Except JsError HealthResult
  | _, 0 => pure { success := false, url := none, error := none }
  | i, fuel + 1 => do
    let step ← attemptE oracle url i retries
    match step with
    | some res => pure res
    | none => checkApiHealthGoE oracle url retries (i + 1) fuel

/-- part_000 `checkApiHealth(url, retries)` in the exception monad. -/
def checkApiHealthE (oracle : Oracle) (url : Option String) (retries : Nat) :
    Except JsError HealthResult :=
  checkApiHealthGoE oracle url retries 0 retries

end FileMgmt.Part000

namespace FileMgmt

/-- An outgoing request descriptor (axios `config`): the request URL,
the `baseURL` the interceptors may rewrite, and the `_retry` marker the
part_001 response interceptor attaches (`retryMark` models `_retry`;
absent on a fresh request is modelled as `false`, matching JavaScript
truthiness of `undefined`). -/
structure Request where
  url : String
  baseURL : Option String
  retryMark : Bool
deriving DecidableEq, Repr

/-- The external world of the part_001 module: the configured
environment variable `VITE_API_URL`, the current `window.location.hostname`,
the network behaviour of health probes (`axios.get` on a health URL, per
attempt counter), and the network behaviour of sending an API request
through the instance. -/
structure Env where
  envUrl : Option String
  hostname : String
  probe : Oracle
  send : Request → Except JsError HttpResponse

/-- Trace of one trip through the resilient request pipeline: how many
times `wakeUpServer` was invoked (wake sequences) and how many times the
request was handed to the network. -/
structure RunTrace where
  wakeCalls : Nat
  sends : Nat
deriving DecidableEq, Repr

/-- The configuration captured by `axios.create` in `createApiInstance`. -/
structure ApiInstance where
  baseURL : String
  timeout : Nat
deriving DecidableEq, Repr

end FileMgmt

namespace FileMgmt.Part001

/-!  Embedding of `src/unnamed/part_001` (the variant with candidate-URL
auto-detection, the wake-up orchestrator and the retrying response
interceptor). -/

/-- part_001 `getApiUrl`: when the configured URL is falsy or equal to
the local default, return the local default on localhost and `null`
(trigger auto-detection) in production; otherwise return the configured
URL unchanged. -/
def getApiUrl (envUrl : Option String) (hostname : String) : Option String :=
  let localUrl := "http://localhost:5000"
  if !jsTruthy envUrl || envUrl == some localUrl then
    let isProduction := hostname ≠ "localhost"
    if isProduction then none else some localUrl
  else envUrl

/-- The URL probed by part_001 `checkApiHealth` and `wakeUpServer`:
plain template concatenation with no normalization. -/
def healthUrlOf (url : String) : String := url ++ "/api/health"

/-- Loop body of part_001 `checkApiHealth`: a body with `status: "ok"`
returns success; any caught error returns the failure on the last
attempt and otherwise awaits `1000 * (i + 1)` ms; a non-ok response
falls through to the next iteration with no delay; falling off the loop
returns the bare failure record. -/
def checkApiHealthGo (oracle : Oracle) (url : String) (retries : Nat) :
    Nat → Nat → HealthResult × Trace
  | _, 0 => ({ success := false, url := none, error := none }, { attempts := 0, sleeps := [] })
  | i, fuel + 1 =>
    match oracle (healthUrlOf url) i with
    | .ok response =>
      if okBody response then
        ({ success := true, url := some url, error := none }, { attempts := 1, sleeps := [] })
      else
        let rest := checkApiHealthGo oracle url retries (i + 1) fuel
        (rest.1, { attempts := rest.2.attempts + 1, sleeps := rest.2.sleeps })
    | .error err =>
      if i = retries - 1 then
        ({ success := false, url := none, error := some err }, { attempts := 1, sleeps := [] })
      else
        let rest := checkApiHealthGo oracle url retries (i + 1) fuel
        (rest.1, { attempts := rest.2.attempts + 1, sleeps := 1000 * (i + 1) :: rest.2.sleeps })

/-- part_001 `checkApiHealth(url, retries)`. -/
def checkApiHealth (oracle : Oracle) (url : String) (retries : Nat) : HealthResult × Trace :=
  checkApiHealthGo oracle url retries 0 retries

/-- The `for (const url of possibleUrls)` loop of `detectApiUrl`: return
the first candidate whose 2-attempt health check succeeds.  (The source
wraps each check in try/catch, but `checkApiHealth` never throws, so the
catch arm is dead; the `.filter(Boolean)` on the literal list of
non-empty strings is the identity.) -/
def firstHealthy (probe : Oracle) : List String → Option String
  | [] => none
  | u :: rest =>
    if (checkApiHealth probe u 2).1.success then some u else firstHealthy probe rest

/-- The two hard-coded candidate URLs of `detectApiUrl`. -/
def possibleUrls : List String :=
  ["https://filebackend-production.up.railway.app",
   "https://filebackend-production-b095.up.railway.app"]

/-- part_001 `detectApiUrl`: prefer the configured URL when its
2-attempt health check succeeds, then scan the candidate list, else
`null`. -/
def detectApiUrl (env : Env) : Option String :=
  let fromEnv :=
    if jsTruthy env.envUrl then
      if (checkApiHealth env.probe (jsGet env.envUrl) 2).1.success then some (jsGet env.envUrl)
      else none
    else none
  match fromEnv with
  | some u => some u
  | none => firstHealthy env.probe possibleUrls

/-- part_001 `getApiUrlWithFallback`: return the cached URL when the
cache slot is truthy and the checked flag is set; otherwise take
`getApiUrl`, and when it is falsy or its 1-attempt health check fails
(the check is short-circuited when the URL is falsy), auto-detect, with
a final fallback to the configured URL or the local default; cache the
outcome. -/
def getApiUrlWithFallback (env : Env) (st : UrlState) : String × UrlState :=
  if jsTruthy st.cachedApiUrl && st.apiUrlChecked then (jsGet st.cachedApiUrl, st)
  else
    let apiUrl0 := getApiUrl env.envUrl env.hostname
    let needsDetect :=
      if jsTruthy apiUrl0 then !(checkApiHealth env.probe (jsGet apiUrl0) 1).1.success
      else true
    let apiUrl :=
      if needsDetect then
        match detectApiUrl env with
        | some u => u
        | none => if jsTruthy env.envUrl then jsGet env.envUrl else "http://localhost:5000"
      else jsGet apiUrl0
    (apiUrl, { cachedApiUrl := some apiUrl, apiUrlChecked := true })

/-- Loop of `wakeUpServer` (`for (let attempt = 1; attempt <= maxRetries;
attempt++)`): an ok-body response returns `true`; a DNS error or a
timeout-classified error returns `false` on the last attempt and
otherwise awaits `2000 * attempt` ms and continues; any other error
returns `false` on the last attempt; the remaining paths (non-ok
response, other error not on the last attempt) reach the bottom-of-loop
wait, which awaits `2000 * attempt` ms only when `attempt < maxRetries`;
falling off the loop returns `false`.  (The per-attempt request timeout
is 5000 ms on attempt 1 and 15000 ms afterwards; it does not influence
the control flow modelled here.) -/
def wakeUpGo (probe : Oracle) (apiUrl : String) (maxRetries : Nat) :
    Nat → Nat → Bool × Trace
  | _, 0 => (false, { attempts := 0, sleeps := [] })
  | attempt, fuel + 1 =>
    match probe (healthUrlOf apiUrl) attempt with
    | .ok response =>
      if okBody response then (true, { attempts := 1, sleeps := [] })
      else
        let rest := wakeUpGo probe apiUrl maxRetries (attempt + 1) fuel
        if attempt < maxRetries then
          (rest.1, { attempts := rest.2.attempts + 1, sleeps := 2000 * attempt :: rest.2.sleeps })
        else (rest.1, { attempts := rest.2.attempts + 1, sleeps := rest.2.sleeps })
    | .error err =>
      if err.code == some "ERR_NAME_NOT_RESOLVED" then
        if attempt = maxRetries then (false, { attempts := 1, sleeps := [] })
        else
          let rest := wakeUpGo probe apiUrl maxRetries (attempt + 1) fuel
          (rest.1, { attempts := rest.2.attempts + 1, sleeps := 2000 * attempt :: rest.2.sleeps })
      else if err.code == some "ECONNABORTED" || err.code == some "ETIMEDOUT" then
        if attempt = maxRetries then (false, { attempts := 1, sleeps := [] })
        else
          let rest := wakeUpGo probe apiUrl maxRetries (attempt + 1) fuel
          (rest.1, { attempts := rest.2.attempts + 1, sleeps := 2000 * attempt :: rest.2.sleeps })
      else
        if attempt = maxRetries then (false, { attempts := 1, sleeps := [] })
        else
          let rest := wakeUpGo probe apiUrl maxRetries (attempt + 1) fuel
          if attempt < maxRetries then
            (rest.1, { attempts := rest.2.attempts + 1, sleeps := 2000 * attempt :: rest.2.sleeps })
          else (rest.1, { attempts := rest.2.attempts + 1, sleeps := rest.2.sleeps })

/-- part_001 `wakeUpServer(apiUrl)`: when the argument is falsy, resolve
the URL first (threading the cache state); then run the 3-attempt wake
loop. -/
def wakeUpServer (env : Env) (st : UrlState) (apiUrlArg : Option String) :
    Bool × UrlState × Trace :=
  let resolved :=
    if jsTruthy apiUrlArg then (jsGet apiUrlArg, st)
    else getApiUrlWithFallback env st
  let res := wakeUpGo env.probe resolved.1 3 1 3
  (res.1, resolved.2, res.2)

/-- Error-message derivation of the part_001 response interceptor
(the code below the retry block): network or DNS errors get the
connectivity message, an HTTP error response gets the server-provided
message or the error message, anything else gets the error message or
the generic fallback. -/
def attachUserMessage (e : JsError) : JsError :=
  let connectMsg := "Cannot connect to server. The server may be sleeping or unavailable. Please try again in a moment."
  if e.code == some "ERR_NETWORK" || e.code == some "ERR_NAME_NOT_RESOLVED" then
    { e with userMessage := some connectMsg }
  else
    match e.response with
    | some r =>
      let fromData := match r.data with | some d => d.message | none => none
      { e with userMessage := some (jsOr fromData e.message) }
    | none =>
      { e with userMessage := some (jsOr (some e.message) "An unexpected error occurred") }

/-- The resilient request pipeline of part_001: send the request; on a
resolved response pass it through; on a rejection run the response
interceptor.  When the rejection is a network-class error and the
request is not yet marked, the interceptor marks it, resolves the
current URL, invokes `wakeUpServer` on it, and on wake success re-issues
the marked request with that base URL; on wake failure it clears the
cache slots, re-resolves, and re-issues only when the new URL differs
(the source also rewrites `originalRequest.url` by replacing the
just-assigned `originalRequest.baseURL`, i.e. the new URL, with the new
URL); otherwise, and for every other rejection, it rejects the error
with a derived `userMessage` attached.  (The `catch (retryError)` arm of
the source is dead code in this model: `getApiUrlWithFallback` and
`wakeUpServer` are total, and the rejection of the re-issued request is
returned without being awaited inside the try, so it never reaches the
catch.)  The re-issued request goes through the same pipeline, which is
why the recursion is on the request with `retryMark := true`. -/
def runRequest (env : Env) (st : UrlState) (req : Request) :
    Except JsError HttpResponse × UrlState × RunTrace :=
  match env.send req with
  | .ok r => (.ok r, st, { wakeCalls := 0, sends := 1 })
  | .error e =>
    if h : ((e.code == some "ERR_NETWORK" || e.code == some "ERR_NAME_NOT_RESOLVED") &&
        !req.retryMark) = true then
      let req1 : Request := { req with retryMark := true }
      let resolved := getApiUrlWithFallback env st
      let apiUrl := resolved.1
      let wres := wakeUpServer env resolved.2 (some apiUrl)
      if wres.1 then
        let inner := runRequest env wres.2.1 { req1 with baseURL := some apiUrl }
        (inner.1, inner.2.1,
          { wakeCalls := inner.2.2.wakeCalls + 1, sends := inner.2.2.sends + 1 })
      else
        let cleared : UrlState := { cachedApiUrl := none, apiUrlChecked := false }
        let reresolved := getApiUrlWithFallback env cleared
        let newApiUrl := reresolved.1
        if newApiUrl ≠ apiUrl then
          let req2 : Request :=
            { req1 with baseURL := some newApiUrl,
                        url := replaceFirst req1.url newApiUrl newApiUrl }
          let inner := runRequest env reresolved.2 req2
          (inner.1, inner.2.1,
            { wakeCalls := inner.2.2.wakeCalls + 1, sends := inner.2.2.sends + 1 })
        else
          (.error (attachUserMessage e), reresolved.2, { wakeCalls := 1, sends := 1 })
    else
      (.error (attachUserMessage e), st, { wakeCalls := 0, sends := 1 })
termination_by (if req.retryMark then 0 else 1)
decreasing_by
  all_goals
    simp only [Bool.and_eq_true, Bool.not_eq_true'] at h
    simp [h.2]

/-- The module-level state of part_001: the URL cache plus the
`apiInstance` singleton slot. -/
structure AppState where
  urlState : UrlState
  apiInstance : Option ApiInstance
deriving Repr

/-- part_001 `createApiInstance`: resolve the URL and capture it (with
the 30 s default timeout) in the axios instance configuration. -/
def createApiInstance (env : Env) (st : UrlState) : ApiInstance × UrlState :=
  let resolved := getApiUrlWithFallback env st
  ({ baseURL := resolved.1, timeout := 30000 }, resolved.2)

/-- part_001 `getApiInstance`: construct the instance on first use, then
always return the cached one. -/
def getApiInstance (env : Env) (s : AppState) : ApiInstance × AppState :=
  match s.apiInstance with
  | some inst => (inst, s)
  | none =>
    let created := createApiInstance env s.urlState
    (created.1, { urlState := created.2, apiInstance := some created.1 })

/-- The classification contract of the part_001 interceptor, as a
predicate on the error object it rejects: network or DNS errors carry
the connectivity message, HTTP error responses the server-provided
message or the error message, anything else the error message or the
generic fallback. -/
def wellFormedUserMessage (e : JsError) : Prop :=
  if (e.code == some "ERR_NETWORK" || e.code == some "ERR_NAME_NOT_RESOLVED") = true then
    e.userMessage =
      some "Cannot connect to server. The server may be sleeping or unavailable. Please try again in a moment."
  else
    match e.response with
    | some r =>
      e.userMessage =
        some (jsOr (match r.data with | some d => d.message | none => none) e.message)
    | none => e.userMessage = some (jsOr (some e.message) "An unexpected error occurred")

/-- A pipeline outcome is annotated when it is a resolved response, or a
rejection whose error carries a derived `userMessage` matching the
classification contract. -/
def rejectionAnnotated : Except JsError HttpResponse → Prop
  | .ok _ => True
  | .error e => e.userMessage.isSome = true ∧ wellFormedUserMessage e

/-- One iteration of part_001 `checkApiHealth` in the exception monad
(`some result` means the iteration returned, `none` that it fell
through). -/
def attemptE (oracle : Oracle) (url : String) (i retries : Nat) :
    Except JsError (Option HealthResult) :=
  tryCatchE
    (do
      let response ← oracle (healthUrlOf url) i
      if okBody response then pure (some { success := true, url := some url, error := none })
      else pure none)
    (fun err =>
      if i = retries - 1 then pure (some { success := false, url := none, error := some err })
      else do
        sleepE (1000 * (i + 1))
        pure none)

/-- part_001 `checkApiHealth` in the exception monad. -/
def checkApiHealthGoE (oracle : Oracle) (url : String) (retries : Nat) :
    Nat → Nat → Except JsError HealthResult
  | _, 0 => pure { success := false, url := none, error := none }
  | i, fuel + 1 => do
    let step ← attemptE oracle url i retries
    match step with
    | some res => pure res
    | none => checkApiHealthGoE oracle url retries (i + 1) fuel

/-- part_001 `checkApiHealth(url, retries)` in the exception monad. -/
def checkApiHealthE (oracle : Oracle) (url : String) (retries : Nat) :
    Except JsError HealthResult :=
  checkApiHealthGoE oracle url retries 0 retries

end FileMgmt.Part001

namespace FileMgmt

/-!  Concrete fixtures used by witness and counterexample theorems. -/

/-- A generic network rejection, as axios raises it when the backend is
unreachable. -/
def eNetW : JsError :=
  { code := some "ERR_NETWORK", message := "Network Error", response := none,
    userMessage := none }

/-- A non-transport rejection: axios raised it because the server
answered HTTP 500 (rejected by `validateStatus`). -/
def e500W : JsError :=
  { code := some "ERR_BAD_RESPONSE", message := "Request failed with status code 500",
    response := some { status := 500, data := none }, userMessage := none }

/-- A healthy probe response: HTTP 200 with body `status: "ok"`. -/
def okRespW : HttpResponse :=
  { status := 200, data := some { status := some "ok", message := none } }

/-- A world whose backend is healthy: every probe and every request
succeeds. -/
def envAllOkW : Env :=
  { envUrl := none, hostname := "localhost",
    probe := fun _ _ => .ok okRespW, send := fun _ => .ok okRespW }

/-- A permanently down world: every probe and every request rejects with
a network error. -/
def envDownW : Env :=
  { envUrl := none, hostname := "localhost",
    probe := fun _ _ => .error eNetW, send := fun _ => .error eNetW }

/-- A world whose backend answers health probes but fails every API
request with a network error (exercises the wake-success retry path). -/
def envFlakyW : Env :=
  { envUrl := none, hostname := "localhost",
    probe := fun _ _ => .ok okRespW, send := fun _ => .error eNetW }

/-- A configured URL with trailing slashes. -/
def slashyUrl : String := "https://api.example.com///"

/-- A production world configured with `slashyUrl` and a healthy
backend. -/
def envSlashyW : Env :=
  { envUrl := some slashyUrl, hostname := "app.example.com",
    probe := fun _ _ => .ok okRespW, send := fun _ => .ok okRespW }

/-- A fresh request that has not been retried. -/
def reqW : Request := { url := "/api/results", baseURL := none, retryMark := false }

/-- An instance fixture for the singleton claim. -/
def instW : ApiInstance := { baseURL := "http://x", timeout := 30000 }

/-- An application state already holding the singleton instance. -/
def stateWithInstW : Part001.AppState :=
  { urlState := { cachedApiUrl := none, apiUrlChecked := false }, apiInstance := some instW }

/-- A 404 response with no parseable body. -/
def resp404W : HttpResponse := { status := 404, data := none }

/-- Bookkeeping applied by a pipeline pass that re-issued its request:
the inner outcome and state pass through, with one more wake sequence
and one more send recorded. -/
def afterRetry (inner : Except JsError HttpResponse × UrlState × RunTrace) :
    Except JsError HttpResponse × UrlState × RunTrace :=
  (inner.1, inner.2.1,
    { wakeCalls := inner.2.2.wakeCalls + 1, sends := inner.2.2.sends + 1 })

end FileMgmt

namespace FileMgmt

section Sanity

example :
    Part000.getApiUrl (some "https://api.example.com///") = "https://api.example.com" := by
  decide

example : Part000.getApiUrl (some "   ") = "http://localhost:5000" := by decide

example : Part000.healthUrlOf (some "http://h/") = "http://h/api/health" := by decide

example :
    (Part000.checkApiHealth
      (fun _ _ => .ok { status := 200, data := some { status := some "ok", message := none } })
      (some "http://h") 3).1.success = true := by decide

example :
    (Part000.checkApiHealth
      (fun _ _ => .error { code := some "ERR_NETWORK", message := "m", response := none,
                           userMessage := none })
      (some "http://h") 3).2 = { attempts := 3, sleeps := [2000, 4000] } := by
  decide

end Sanity

end FileMgmt

namespace FileMgmt

theorem backoffSleeps_mem_lb (base : Nat) :
    ∀ m i x, x ∈ backoffSleeps base i m → base * (i + 1) ≤ x := by
  intro m
  induction m with
  | zero => intro i x hx; simp [backoffSleeps] at hx
  | succ n ih =>
    intro i x hx
    simp only [backoffSleeps, List.mem_cons] at hx
    rcases hx with rfl | hx
    · exact Nat.le_refl _
    · have h1 := ih (i + 1) x hx
      have hexp : base * (i + 1 + 1) = base * (i + 1) + base := by ring
      omega

theorem backoffSleeps_pairwise (base : Nat) (hb : 0 < base) :
    ∀ m i, List.Pairwise (· < ·) (backoffSleeps base i m) := by
  intro m
  induction m with
  | zero => intro i; simp [backoffSleeps]
  | succ n ih =>
    intro i
    simp only [backoffSleeps]
    refine List.Pairwise.cons ?_ (ih (i + 1))
    intro x hx
    have h1 := backoffSleeps_mem_lb base n (i + 1) x hx
    have hexp : base * (i + 1 + 1) = base * (i + 1) + base := by ring
    omega

theorem part000_go_transport (oracle : Oracle) (url : Option String) (retries : Nat)
    (errAt : Nat → JsError)
    (hfail : ∀ j, oracle (Part000.healthUrlOf url) j = .error (errAt j))
    (htrans : ∀ j, isTransportCode (errAt j).code = true) :
    ∀ fuel i, 1 ≤ fuel → i + fuel = retries →
      Part000.checkApiHealthGo oracle url retries i fuel =
        ({ success := false, url := none, error := some (errAt (retries - 1)) },
         { attempts := fuel, sleeps := backoffSleeps 2000 i (fuel - 1) }) := by
  intro fuel
  induction fuel with
  | zero => intro i h1 _; omega
  | succ n ih =>
    intro i _ hsum
    by_cases hn : n = 0
    · subst hn
      have hi : i = retries - 1 := by omega
      simp [Part000.checkApiHealthGo, hfail, htrans, hi, backoffSleeps]
    · obtain ⟨m, rfl⟩ : ∃ m, n = m + 1 := ⟨n - 1, by omega⟩
      have hi : ¬(i = retries - 1) := by omega
      have hrec := ih (i + 1) (by omega) (by omega)
      conv_lhs => rw [Part000.checkApiHealthGo]
      rw [hfail i]
      simp only [htrans i, hi, if_true, if_false, Bool.true_eq_false]
      rw [hrec]
      simp [backoffSleeps]

end FileMgmt

namespace FileMgmt

theorem part001_go_anyError (oracle : Oracle) (url : String) (retries : Nat)
    (errAt : Nat → JsError)
    (hfail : ∀ j, oracle (Part001.healthUrlOf url) j = .error (errAt j)) :
    ∀ fuel i, 1 ≤ fuel → i + fuel = retries →
      Part001.checkApiHealthGo oracle url retries i fuel =
        ({ success := false, url := none, error := some (errAt (retries - 1)) },
         { attempts := fuel, sleeps := backoffSleeps 1000 i (fuel - 1) }) := by
  intro fuel
  induction fuel with
  | zero => intro i h1 _; omega
  | succ n ih =>
    intro i _ hsum
    by_cases hn : n = 0
    · subst hn
      have hi : i = retries - 1 := by omega
      simp [Part001.checkApiHealthGo, hfail, hi, backoffSleeps]
    · obtain ⟨m, rfl⟩ : ∃ m, n = m + 1 := ⟨n - 1, by omega⟩
      have hi : ¬(i = retries - 1) := by omega
      have hrec := ih (i + 1) (by omega) (by omega)
      conv_lhs => rw [Part001.checkApiHealthGo]
      rw [hfail i]
      simp only [hi, if_false]
      rw [hrec]
      simp [backoffSleeps]

theorem part000_go_nonOk (oracle : Oracle) (url : Option String) (retries : Nat)
    (respAt : Nat → HttpResponse)
    (hresp : ∀ j, oracle (Part000.healthUrlOf url) j = .ok (respAt j))
    (hnok : ∀ j, okBody (respAt j) = false) :
    ∀ fuel i, Part000.checkApiHealthGo oracle url retries i fuel =
      ({ success := false, url := none, error := none },
       { attempts := fuel, sleeps := [] }) := by
  intro fuel
  induction fuel with
  | zero => intro i; simp [Part000.checkApiHealthGo]
  | succ n ih =>
    intro i
    conv_lhs => rw [Part000.checkApiHealthGo]
    rw [hresp i]
    simp only [hnok i, Bool.false_eq_true, if_false]
    rw [ih (i + 1)]

theorem part001_go_nonOk (oracle : Oracle) (url : String) (retries : Nat)
    (respAt : Nat → HttpResponse)
    (hresp : ∀ j, oracle (Part001.healthUrlOf url) j = .ok (respAt j))
    (hnok : ∀ j, okBody (respAt j) = false) :
    ∀ fuel i, Part001.checkApiHealthGo oracle url retries i fuel =
      ({ success := false, url := none, error := none },
       { attempts := fuel, sleeps := [] }) := by
  intro fuel
  induction fuel with
  | zero => intro i; simp [Part001.checkApiHealthGo]
  | succ n ih =>
    intro i
    conv_lhs => rw [Part001.checkApiHealthGo]
    rw [hresp i]
    simp only [hnok i, Bool.false_eq_true, if_false]
    rw [ih (i + 1)]

/-- C5: when every attempt fails with a transport-classified error
(name-not-resolved, network failure, timeout), checkApiHealth of either
variant performs exactly maxAttempts attempts, awaits strictly
increasing backoff delays between attempts (2000 ms times the attempt
number in part_000, 1000 ms times the attempt number in part_001), and
returns the failure record carrying the last error. -/
theorem C5_exhausts_attempts (oracle₀ oracle₁ : Oracle) (url : Option String) (u1 : String)
    (maxAttempts : Nat) (errAt : Nat → JsError)
    (hpos : 1 ≤ maxAttempts)
    (hfail₀ : ∀ j, oracle₀ (Part000.healthUrlOf url) j = .error (errAt j))
    (hfail₁ : ∀ j, oracle₁ (Part001.healthUrlOf u1) j = .error (errAt j))
    (htrans : ∀ j, isTransportCode (errAt j).code = true) :
    Part000.checkApiHealth oracle₀ url maxAttempts =
      ({ success := false, url := none, error := some (errAt (maxAttempts - 1)) },
       { attempts := maxAttempts, sleeps := backoffSleeps 2000 0 (maxAttempts - 1) }) ∧
    Part001.checkApiHealth oracle₁ u1 maxAttempts =
      ({ success := false, url := none, error := some (errAt (maxAttempts - 1)) },
       { attempts := maxAttempts, sleeps := backoffSleeps 1000 0 (maxAttempts - 1) }) ∧
    List.Pairwise (· < ·) (backoffSleeps 2000 0 (maxAttempts - 1)) ∧
    List.Pairwise (· < ·) (backoffSleeps 1000 0 (maxAttempts - 1)) := by
  refine ⟨?_, ?_, backoffSleeps_pairwise 2000 (by omega) _ 0,
    backoffSleeps_pairwise 1000 (by omega) _ 0⟩
  · exact part000_go_transport oracle₀ url maxAttempts errAt hfail₀ htrans maxAttempts 0 hpos
      (by omega)
  · exact part001_go_anyError oracle₁ u1 maxAttempts errAt hfail₁ maxAttempts 0 hpos (by omega)

theorem C5_exhausts_attempts_witness :
    1 ≤ 3 ∧
    Part000.checkApiHealth (fun _ _ => .error eNetW) (some "http://localhost:5000") 3 =
      ({ success := false, url := none, error := some eNetW },
       { attempts := 3, sleeps := [2000, 4000] }) ∧
    Part001.checkApiHealth (fun _ _ => .error eNetW) "http://localhost:5000" 3 =
      ({ success := false, url := none, error := some eNetW },
       { attempts := 3, sleeps := [1000, 2000] }) ∧
    List.Pairwise (· < ·) [2000, 4000] ∧
    List.Pairwise (· < ·) [1000, 2000] := by
  have h := C5_exhausts_attempts (fun _ _ => .error eNetW) (fun _ _ => .error eNetW)
    (some "http://localhost:5000") "http://localhost:5000" 3 (fun _ => eNetW)
    (by omega) (fun _ => rfl) (fun _ => rfl)
    (fun _ => by show isTransportCode eNetW.code = true; decide)
  exact ⟨by omega, h.1, h.2.1, h.2.2.1, h.2.2.2⟩

end FileMgmt

namespace FileMgmt

/-- C10: when every attempt receives an HTTP response below 500 whose
body is not a status-ok body, checkApiHealth of either variant inserts
no backoff delay, performs all retries attempts, and returns the bare
failure record with no error and no url field. -/
theorem C10_bare_failure (oracle₀ oracle₁ : Oracle) (url : Option String) (u1 : String)
    (retries : Nat) (respAt : Nat → HttpResponse)
    (hstatus : ∀ j, (respAt j).status < 500)
    (hresp₀ : ∀ j, oracle₀ (Part000.healthUrlOf url) j = .ok (respAt j))
    (hresp₁ : ∀ j, oracle₁ (Part001.healthUrlOf u1) j = .ok (respAt j))
    (hnok : ∀ j, okBody (respAt j) = false) :
    Part000.checkApiHealth oracle₀ url retries =
      ({ success := false, url := none, error := none },
       { attempts := retries, sleeps := [] }) ∧
    Part001.checkApiHealth oracle₁ u1 retries =
      ({ success := false, url := none, error := none },
       { attempts := retries, sleeps := [] }) :=
  ⟨part000_go_nonOk oracle₀ url retries respAt hresp₀ hnok retries 0,
   part001_go_nonOk oracle₁ u1 retries respAt hresp₁ hnok retries 0⟩

theorem C10_bare_failure_witness :
    (∀ j : Nat, resp404W.status < 500) ∧
    Part000.checkApiHealth (fun _ _ => .ok resp404W) (some "http://localhost:5000") 3 =
      ({ success := false, url := none, error := none }, { attempts := 3, sleeps := [] }) ∧
    Part001.checkApiHealth (fun _ _ => .ok resp404W) "http://localhost:5000" 3 =
      ({ success := false, url := none, error := none }, { attempts := 3, sleeps := [] }) := by
  have h := C10_bare_failure (fun _ _ => .ok resp404W) (fun _ _ => .ok resp404W)
    (some "http://localhost:5000") "http://localhost:5000" 3 (fun _ => resp404W)
    (fun _ => by show resp404W.status < 500; decide) (fun _ => rfl) (fun _ => rfl)
    (fun _ => by show okBody resp404W = false; decide)
  exact ⟨fun _ => by show resp404W.status < 500; decide, h.1, h.2⟩

/-- C6: evaluation of part_000 checkApiHealth at an oracle whose every
attempt throws a non-transport error (an HTTP 500 rejection): the
operation performs all 3 attempts with backoff waits of 1000 ms and
2000 ms between them and only then returns the failure record, instead
of returning it immediately after the first attempt with no further
attempts and no backoff wait, as the claim (and the comment in the
source) states. -/
theorem C6_nontransport_retried :
    Part000.checkApiHealth (fun _ _ => .error e500W) (some "http://localhost:5000") 3 =
      ({ success := false, url := none, error := some e500W },
       { attempts := 3, sleeps := [1000, 2000] }) := by
  decide

end FileMgmt

namespace FileMgmt

theorem part000_attemptE_ok (oracle : Oracle) (url : Option String) (i retries : Nat) :
    ∃ v, Part000.attemptE oracle url i retries = .ok v := by
  unfold Part000.attemptE tryCatchE
  cases h : oracle (Part000.healthUrlOf url) i with
  | ok r =>
    simp only [bind, Except.bind, h]
    cases hb : okBody r <;> simp [hb, pure, Except.pure]
  | error e =>
    simp only [bind, Except.bind, h]
    by_cases hc : isTransportCode e.code = true <;>
      by_cases hl : i = retries - 1 <;>
        simp [hc, hl, sleepE, pure, Except.pure]

theorem part000_goE_ok (oracle : Oracle) (url : Option String) (retries : Nat) :
    ∀ fuel i, ∃ r, Part000.checkApiHealthGoE oracle url retries i fuel = .ok r := by
  intro fuel
  induction fuel with
  | zero => intro i; exact ⟨_, rfl⟩
  | succ n ih =>
    intro i
    obtain ⟨v, hv⟩ := part000_attemptE_ok oracle url i retries
    cases v with
    | some res =>
      exact ⟨res, by simp [Part000.checkApiHealthGoE, bind, Except.bind, hv, pure, Except.pure]⟩
    | none =>
      obtain ⟨r, hr⟩ := ih (i + 1)
      exact ⟨r, by simp [Part000.checkApiHealthGoE, bind, Except.bind, hv, hr]⟩

theorem part001_attemptE_ok (oracle : Oracle) (url : String) (i retries : Nat) :
    ∃ v, Part001.attemptE oracle url i retries = .ok v := by
  unfold Part001.attemptE tryCatchE
  cases h : oracle (Part001.healthUrlOf url) i with
  | ok r =>
    simp only [bind, Except.bind, h]
    cases hb : okBody r <;> simp [hb, pure, Except.pure]
  | error e =>
    simp only [bind, Except.bind, h]
    by_cases hl : i = retries - 1 <;> simp [hl, sleepE, pure, Except.pure]

theorem part001_goE_ok (oracle : Oracle) (url : String) (retries : Nat) :
    ∀ fuel i, ∃ r, Part001.checkApiHealthGoE oracle url retries i fuel = .ok r := by
  intro fuel
  induction fuel with
  | zero => intro i; exact ⟨_, rfl⟩
  | succ n ih =>
    intro i
    obtain ⟨v, hv⟩ := part001_attemptE_ok oracle url i retries
    cases v with
    | some res =>
      exact ⟨res, by simp [Part001.checkApiHealthGoE, bind, Except.bind, hv, pure, Except.pure]⟩
    | none =>
      obtain ⟨r, hr⟩ := ih (i + 1)
      exact ⟨r, by simp [Part001.checkApiHealthGoE, bind, Except.bind, hv, hr]⟩

/-- C4: in the exception monad, where a probe may throw and the
try/catch structure of the source is modelled explicitly,
checkApiHealth of either variant returns an ok result record for every
oracle, every url and every retries value: no exception propagates past
its boundary. -/
theorem C4_never_throws (oracle₀ oracle₁ : Oracle) (url : Option String) (u1 : String)
    (retries : Nat) :
    (∃ r, Part000.checkApiHealthE oracle₀ url retries = .ok r) ∧
    (∃ r, Part001.checkApiHealthE oracle₁ u1 retries = .ok r) :=
  ⟨part000_goE_ok oracle₀ url retries retries 0, part001_goE_ok oracle₁ u1 retries retries 0⟩

end FileMgmt

namespace FileMgmt

theorem wakeUpGo_attempts_le (probe : Oracle) (apiUrl : String) (maxRetries : Nat) :
    ∀ fuel attempt, (Part001.wakeUpGo probe apiUrl maxRetries attempt fuel).2.attempts ≤ fuel := by
  intro fuel
  induction fuel with
  | zero => intro a; simp [Part001.wakeUpGo]
  | succ n ih =>
    intro a
    have ih1 := ih (a + 1)
    cases h : probe (Part001.healthUrlOf apiUrl) a with
    | ok r =>
      simp only [Part001.wakeUpGo, h]
      split_ifs <;> simp <;> omega
    | error e =>
      simp only [Part001.wakeUpGo, h]
      split_ifs <;> simp <;> omega

theorem wakeUpGo_true_sound (probe : Oracle) (apiUrl : String) (maxRetries : Nat) :
    ∀ fuel attempt, (Part001.wakeUpGo probe apiUrl maxRetries attempt fuel).1 = true →
      ∃ a, attempt ≤ a ∧ a < attempt + fuel ∧
        ∃ r, probe (Part001.healthUrlOf apiUrl) a = .ok r ∧ okBody r = true := by
  intro fuel
  induction fuel with
  | zero => intro a h; simp [Part001.wakeUpGo] at h
  | succ n ih =>
    intro a htrue
    cases h : probe (Part001.healthUrlOf apiUrl) a with
    | ok r =>
      by_cases hb : okBody r = true
      · exact ⟨a, Nat.le_refl a, by omega, r, h, hb⟩
      · simp only [Part001.wakeUpGo, h, hb, Bool.false_eq_true, if_false] at htrue
        split_ifs at htrue <;>
          · simp only at htrue
            obtain ⟨x, hx1, hx2, hrest⟩ := ih (a + 1) htrue
            exact ⟨x, by omega, by omega, hrest⟩
    | error e =>
      simp only [Part001.wakeUpGo, h] at htrue
      split_ifs at htrue <;>
        · obtain ⟨x, hx1, hx2, hrest⟩ := ih (a + 1) htrue
          exact ⟨x, by omega, by omega, hrest⟩

/-- C7: wakeUpServer called with an explicit URL performs at most 3
health-probe attempts, and when it returns true some probe within the
3-attempt budget yielded a response whose body status field equals ok;
it is a total function, so it always terminates with a boolean. -/
theorem C7_wake_bounded (env : Env) (st : UrlState) (url : String) (hurl : url ≠ "") :
    (Part001.wakeUpServer env st (some url)).2.2.attempts ≤ 3 ∧
    ((Part001.wakeUpServer env st (some url)).1 = true →
      ∃ a, 1 ≤ a ∧ a ≤ 3 ∧
        ∃ r, env.probe (Part001.healthUrlOf url) a = .ok r ∧ okBody r = true) := by
  have hdata : url.data ≠ [] := by
    intro hnil
    apply hurl
    cases url
    simp_all
  have htr : jsTruthy (some url) = true := by
    simp [jsTruthy, strEmpty, List.isEmpty_iff, hdata]
  constructor
  · simp only [Part001.wakeUpServer, htr, if_true, jsGet]
    exact wakeUpGo_attempts_le env.probe url 3 3 1
  · intro htrue
    simp only [Part001.wakeUpServer, htr, if_true, jsGet] at htrue
    obtain ⟨a, ha1, ha2, hr⟩ := wakeUpGo_true_sound env.probe url 3 3 1 htrue
    exact ⟨a, ha1, by omega, hr⟩

theorem C7_wake_bounded_witness :
    ("http://localhost:5000" ≠ "") ∧
    (Part001.wakeUpServer envAllOkW { cachedApiUrl := none, apiUrlChecked := false }
      (some "http://localhost:5000")).1 = true ∧
    ∃ a, 1 ≤ a ∧ a ≤ 3 ∧
      ∃ r, envAllOkW.probe (Part001.healthUrlOf "http://localhost:5000") a = .ok r ∧
        okBody r = true := by
  refine ⟨by decide, by decide, ?_⟩
  exact (C7_wake_bounded envAllOkW { cachedApiUrl := none, apiUrlChecked := false }
    "http://localhost:5000" (by decide)).2 (by decide)

end FileMgmt

namespace FileMgmt

theorem head?_dropWhile_false {α : Type} (p : α → Bool) :
    ∀ l : List α, ∀ a, (l.dropWhile p).head? = some a → p a = false := by
  intro l
  induction l with
  | nil => intro a h; simp [List.dropWhile] at h
  | cons c rest ih =>
    intro a h
    by_cases hc : p c = true
    · rw [List.dropWhile_cons_of_pos hc] at h
      exact ih a h
    · rw [List.dropWhile_cons_of_neg hc] at h
      simp at h
      subst h
      simpa using hc

theorem endsInSlash_strip (s : String) : endsInSlash (stripTrailingSlashes s) = false := by
  unfold endsInSlash stripTrailingSlashes
  simp only [List.getLast?_reverse]
  cases hh : (s.data.reverse.dropWhile (fun c => c == '/')).head? with
  | none => rfl
  | some a =>
    have := head?_dropWhile_false (fun c => c == '/') s.data.reverse a hh
    simp only [beq_iff_eq] at this ⊢
    simp [this]

/-- C3 (amended): in the normalizing variant (part_000), the resolved
base URL never ends in a slash, and the health URL is either the bare
path or a slash-free base followed by the /api/health path, so no double
slash is introduced at the junction.  (The part_001 variant does not
normalize; see the counterexample.) -/
theorem C3_no_trailing_slash :
    (∀ envUrl, endsInSlash (Part000.getApiUrl envUrl) = false) ∧
    (∀ url, Part000.healthUrlOf url = "/api/health" ∨
      ∃ c, Part000.cleanUrlOf url = some c ∧ endsInSlash c = false ∧
        Part000.healthUrlOf url = c ++ "/api/health") := by
  constructor
  · intro envUrl
    cases envUrl with
    | none => decide
    | some s =>
      show endsInSlash
        (if (!strEmpty s && !strEmpty (trimStr s)) = true then stripTrailingSlashes (trimStr s)
         else "http://localhost:5000") = false
      by_cases h : (!strEmpty s && !strEmpty (trimStr s)) = true
      · rw [if_pos h]
        exact endsInSlash_strip (trimStr s)
      · rw [if_neg h]
        decide
  · intro url
    cases url with
    | none => left; rfl
    | some u =>
      by_cases hu : strEmpty u = true
      · left
        simp [Part000.healthUrlOf, Part000.cleanUrlOf, hu]
      · have hc : Part000.cleanUrlOf (some u) = some (stripTrailingSlashes u) := by
          simp [Part000.cleanUrlOf, hu]
        by_cases hcc : strEmpty (stripTrailingSlashes u) = true
        · left
          simp [Part000.healthUrlOf, hc, hcc]
        · right
          refine ⟨stripTrailingSlashes u, hc, endsInSlash_strip u, ?_⟩
          simp [Part000.healthUrlOf, hc, hcc]

/-- C3 counterexample: in part_001, a configured URL with trailing
slashes is resolved and cached verbatim, the resolved base URL ends in a
slash, and the constructed health URL contains a double slash before
api. -/
theorem C3_part001_keeps_trailing_slashes :
    (Part001.getApiUrlWithFallback envSlashyW
      { cachedApiUrl := none, apiUrlChecked := false }).1 = slashyUrl ∧
    (Part001.getApiUrlWithFallback envSlashyW
      { cachedApiUrl := none, apiUrlChecked := false }).2.cachedApiUrl = some slashyUrl ∧
    endsInSlash slashyUrl = true ∧
    containsSub (Part001.healthUrlOf slashyUrl) "//api" = true := by
  decide

end FileMgmt

namespace FileMgmt

/-- C9: once the part_000 URL cache holds a truthy value with the
checked flag set, getApiUrlWithFallback returns it with the state
unchanged, and a second call after any call returns the same result;
likewise part_001 getApiInstance returns an existing instance with the
state unchanged and is idempotent after the first construction. -/
theorem C9_cache_and_singleton :
    (∀ envUrl st u, st.cachedApiUrl = some u → u ≠ "" → st.apiUrlChecked = true →
      Part000.getApiUrlWithFallback envUrl st = (u, st)) ∧
    (∀ envUrl st, Part000.getApiUrlWithFallback envUrl
        (Part000.getApiUrlWithFallback envUrl st).2 = Part000.getApiUrlWithFallback envUrl st) ∧
    (∀ env s inst, s.apiInstance = some inst → Part001.getApiInstance env s = (inst, s)) ∧
    (∀ env s, Part001.getApiInstance env ((Part001.getApiInstance env s).2) =
      Part001.getApiInstance env s) := by
  have hcached : ∀ envUrl st u, st.cachedApiUrl = some u → u ≠ "" → st.apiUrlChecked = true →
      Part000.getApiUrlWithFallback envUrl st = (u, st) := by
    intro envUrl st u hc hu hch
    have hdata : u.data ≠ [] := by
      intro hnil
      apply hu
      cases u
      simp_all
    have htru : jsTruthy (some u) = true := by
      simp [jsTruthy, strEmpty, List.isEmpty_iff, hdata]
    simp [Part000.getApiUrlWithFallback, hc, hch, htru, jsGet]
  refine ⟨hcached, ?_, ?_, ?_⟩
  · intro envUrl st
    by_cases h : (jsTruthy st.cachedApiUrl && st.apiUrlChecked) = true
    · have h1 : Part000.getApiUrlWithFallback envUrl st = (jsGet st.cachedApiUrl, st) := by
        simp [Part000.getApiUrlWithFallback, h]
      rw [h1, h1]
    · have h1 : Part000.getApiUrlWithFallback envUrl st =
          (Part000.getApiUrl envUrl,
           { cachedApiUrl := some (Part000.getApiUrl envUrl), apiUrlChecked := true }) := by
        simp [Part000.getApiUrlWithFallback, h]
      rw [h1]
      by_cases h2 : strEmpty (Part000.getApiUrl envUrl) = true
      · simp [Part000.getApiUrlWithFallback, jsTruthy, h2, jsGet]
      · simp [Part000.getApiUrlWithFallback, jsTruthy, h2, jsGet]
  · intro env s inst hinst
    simp [Part001.getApiInstance, hinst]
  · intro env s
    cases hinst : s.apiInstance with
    | some inst => simp [Part001.getApiInstance, hinst]
    | none => simp [Part001.getApiInstance, hinst]

theorem C9_cache_and_singleton_witness :
    (({ cachedApiUrl := some "http://x", apiUrlChecked := true } : UrlState).cachedApiUrl =
      some "http://x") ∧
    ("http://x" ≠ "") ∧
    (({ cachedApiUrl := some "http://x", apiUrlChecked := true } : UrlState).apiUrlChecked =
      true) ∧
    Part000.getApiUrlWithFallback none { cachedApiUrl := some "http://x", apiUrlChecked := true } =
      ("http://x", { cachedApiUrl := some "http://x", apiUrlChecked := true }) ∧
    (stateWithInstW.apiInstance = some instW) ∧
    Part001.getApiInstance envAllOkW stateWithInstW = (instW, stateWithInstW) := by
  refine ⟨rfl, by decide, rfl, ?_, rfl, ?_⟩
  · exact C9_cache_and_singleton.1 none _ "http://x" rfl (by decide) rfl
  · exact C9_cache_and_singleton.2.2.1 envAllOkW stateWithInstW instW rfl

end FileMgmt

namespace FileMgmt.Part001

theorem runRequest_marked (env : Env) (st : UrlState) (req : Request)
    (hm : req.retryMark = true) :
    runRequest env st req =
      match env.send req with
      | .ok r => (.ok r, st, { wakeCalls := 0, sends := 1 })
      | .error e => (.error (attachUserMessage e), st, { wakeCalls := 0, sends := 1 }) := by
  rw [runRequest.eq_def]
  cases henv : env.send req <;> simp [hm]

end FileMgmt.Part001

namespace FileMgmt

/-- C1: against a backend whose every request rejects with a
network-class error, the part_001 pipeline run on an unmarked request
performs exactly one wake sequence and ends in a rejection, and a run on
a request whose retry marker is already set performs no wake sequence,
sends exactly once and rejects: the wake-and-retry cycle happens at most
once per original call. -/
theorem C1_single_retry (env : Env) (st : UrlState) (req : Request) (e : JsError)
    (hfail : ∀ r, env.send r = .error e)
    (hcode : (e.code == some "ERR_NETWORK" || e.code == some "ERR_NAME_NOT_RESOLVED") = true) :
    (req.retryMark = false →
      (Part001.runRequest env st req).2.2.wakeCalls = 1 ∧
      (Part001.runRequest env st req).1 = .error (Part001.attachUserMessage e)) ∧
    (req.retryMark = true →
      (Part001.runRequest env st req).2.2.wakeCalls = 0 ∧
      (Part001.runRequest env st req).2.2.sends = 1 ∧
      (Part001.runRequest env st req).1 = .error (Part001.attachUserMessage e)) := by
  have hmarked : ∀ (st' : UrlState) (req' : Request), req'.retryMark = true →
      Part001.runRequest env st' req' =
        (.error (Part001.attachUserMessage e), st', { wakeCalls := 0, sends := 1 }) := by
    intro st' req' hm'
    rw [Part001.runRequest_marked env st' req' hm', hfail req']
  constructor
  · intro hm
    have h := Part001.runRequest.eq_def env st req
    rw [hfail req] at h
    simp only [hcode, hm, Bool.not_false, Bool.and_true, dite_true] at h
    by_cases hw : (Part001.wakeUpServer env (Part001.getApiUrlWithFallback env st).2
        (some (Part001.getApiUrlWithFallback env st).1)).1 = true
    · rw [if_pos hw] at h
      rw [hmarked ((Part001.wakeUpServer env (Part001.getApiUrlWithFallback env st).2
            (some (Part001.getApiUrlWithFallback env st).1)).2.1)
          { url := req.url, baseURL := some (Part001.getApiUrlWithFallback env st).1,
            retryMark := true } rfl] at h
      simp [h]
    · rw [if_neg hw] at h
      by_cases hne : (Part001.getApiUrlWithFallback env
          { cachedApiUrl := none, apiUrlChecked := false }).1 ≠
          (Part001.getApiUrlWithFallback env st).1
      · rw [if_pos hne] at h
        rw [hmarked ((Part001.getApiUrlWithFallback env
              { cachedApiUrl := none, apiUrlChecked := false }).2)
            { url := replaceFirst req.url
                (Part001.getApiUrlWithFallback env
                  { cachedApiUrl := none, apiUrlChecked := false }).1
                (Part001.getApiUrlWithFallback env
                  { cachedApiUrl := none, apiUrlChecked := false }).1,
              baseURL := some (Part001.getApiUrlWithFallback env
                { cachedApiUrl := none, apiUrlChecked := false }).1,
              retryMark := true } rfl] at h
        simp [h]
      · rw [if_neg hne] at h
        simp [h]
  · intro hm
    rw [hmarked st req hm]
    exact ⟨rfl, rfl, rfl⟩

theorem C1_single_retry_witness :
    (∀ r : Request, envDownW.send r = .error eNetW) ∧
    (eNetW.code == some "ERR_NETWORK" || eNetW.code == some "ERR_NAME_NOT_RESOLVED") = true ∧
    reqW.retryMark = false ∧
    (Part001.runRequest envDownW { cachedApiUrl := none, apiUrlChecked := false } reqW).2.2.wakeCalls
      = 1 ∧
    (Part001.runRequest envDownW { cachedApiUrl := none, apiUrlChecked := false } reqW).1 =
      .error (Part001.attachUserMessage eNetW) := by
  refine ⟨fun _ => rfl, by decide, rfl, ?_⟩
  exact (C1_single_retry envDownW { cachedApiUrl := none, apiUrlChecked := false } reqW eNetW
    (fun _ => rfl) (by decide)).1 rfl

end FileMgmt

namespace FileMgmt

/-- C2: on a network-class failure of an unmarked request, the
interceptor resolves the cached URL and invokes the wake operation on
it; if wake succeeds the identical request (marked, with that base URL)
is re-issued through the pipeline from the same URL state; if wake fails
the cache is cleared and re-resolved, the request is re-issued only when
the newly resolved URL differs from the old one, and otherwise the
original error is rejected with its derived userMessage. -/
theorem C2_wake_retry_branches (env : Env) (st : UrlState) (req : Request) (e : JsError)
    (hsend : env.send req = .error e)
    (hcode : (e.code == some "ERR_NETWORK" || e.code == some "ERR_NAME_NOT_RESOLVED") = true)
    (hmark : req.retryMark = false) :
    ∀ apiUrl st1, Part001.getApiUrlWithFallback env st = (apiUrl, st1) →
      ((Part001.wakeUpServer env st1 (some apiUrl)).1 = true →
        Part001.runRequest env st req =
          afterRetry (Part001.runRequest env (Part001.wakeUpServer env st1 (some apiUrl)).2.1
            { url := req.url, baseURL := some apiUrl, retryMark := true })) ∧
      ((Part001.wakeUpServer env st1 (some apiUrl)).1 = false →
        ∀ newApiUrl st3,
          Part001.getApiUrlWithFallback env { cachedApiUrl := none, apiUrlChecked := false } =
            (newApiUrl, st3) →
          (newApiUrl ≠ apiUrl →
            Part001.runRequest env st req =
              afterRetry (Part001.runRequest env st3
                { url := replaceFirst req.url newApiUrl newApiUrl,
                  baseURL := some newApiUrl, retryMark := true })) ∧
          (newApiUrl = apiUrl →
            Part001.runRequest env st req =
              (.error (Part001.attachUserMessage e), st3,
               { wakeCalls := 1, sends := 1 }))) := by
  intro apiUrl st1 hga
  have h := Part001.runRequest.eq_def env st req
  rw [hsend] at h
  simp only [hcode, hmark, Bool.not_false, Bool.and_true, dite_true] at h
  rw [hga] at h
  simp only at h
  constructor
  · intro hw
    rw [if_pos hw] at h
    rw [h]
    rfl
  · intro hw newApiUrl st3 hga2
    rw [if_neg (by simp [hw])] at h
    rw [hga2] at h
    simp only at h
    constructor
    · intro hne
      rw [if_pos hne] at h
      rw [h]
      rfl
    · intro heq
      rw [if_neg (by simp [heq])] at h
      rw [h]

theorem C2_wake_retry_branches_witness :
    envFlakyW.send reqW = .error eNetW ∧
    (eNetW.code == some "ERR_NETWORK" || eNetW.code == some "ERR_NAME_NOT_RESOLVED") = true ∧
    reqW.retryMark = false ∧
    Part001.getApiUrlWithFallback envFlakyW { cachedApiUrl := none, apiUrlChecked := false } =
      ("http://localhost:5000",
       { cachedApiUrl := some "http://localhost:5000", apiUrlChecked := true }) ∧
    (Part001.wakeUpServer envFlakyW
      { cachedApiUrl := some "http://localhost:5000", apiUrlChecked := true }
      (some "http://localhost:5000")).1 = true ∧
    Part001.runRequest envFlakyW { cachedApiUrl := none, apiUrlChecked := false } reqW =
      afterRetry (Part001.runRequest envFlakyW
        (Part001.wakeUpServer envFlakyW
          { cachedApiUrl := some "http://localhost:5000", apiUrlChecked := true }
          (some "http://localhost:5000")).2.1
        { url := reqW.url, baseURL := some "http://localhost:5000", retryMark := true }) := by
  refine ⟨rfl, by decide, rfl, by decide, by decide, ?_⟩
  exact ((C2_wake_retry_branches envFlakyW { cachedApiUrl := none, apiUrlChecked := false }
    reqW eNetW rfl (by decide) rfl "http://localhost:5000"
    { cachedApiUrl := some "http://localhost:5000", apiUrlChecked := true } (by decide)).1
    (by decide))

end FileMgmt

namespace FileMgmt

theorem part001_attach_wellFormed (e : JsError) :
    (Part001.attachUserMessage e).userMessage.isSome = true ∧
    Part001.wellFormedUserMessage (Part001.attachUserMessage e) := by
  unfold Part001.attachUserMessage Part001.wellFormedUserMessage
  by_cases hc : (e.code == some "ERR_NETWORK" || e.code == some "ERR_NAME_NOT_RESOLVED") = true
  · simp [hc]
  · cases hr : e.response with
    | some r => simp [hc, hr]
    | none => simp [hc, hr]

theorem part000_attach_wellFormed (e : JsError) :
    (Part000.attachUserMessage e).userMessage.isSome = true ∧
    Part000.wellFormedUserMessage (Part000.attachUserMessage e) := by
  unfold Part000.attachUserMessage Part000.wellFormedUserMessage
  by_cases hc : (e.code == some "ERR_NETWORK" || e.code == some "ERR_NAME_NOT_RESOLVED") = true
  · simp [hc]
  · by_cases ht : (e.code == some "ECONNABORTED" && containsSub e.message "timeout") = true
    · simp [hc, ht]
    · cases hr : e.response with
      | some r => simp [hc, ht, hr]
      | none => simp [hc, ht, hr]

theorem runRequest_outcome_shape (env : Env) (st : UrlState) (req : Request) :
    (∃ r, (Part001.runRequest env st req).1 = .ok r) ∨
    (∃ e₀, (Part001.runRequest env st req).1 = .error (Part001.attachUserMessage e₀)) := by
  have hmshape : ∀ (st' : UrlState) (req' : Request), req'.retryMark = true →
      (∃ r, (Part001.runRequest env st' req').1 = .ok r) ∨
      (∃ e₀, (Part001.runRequest env st' req').1 = .error (Part001.attachUserMessage e₀)) := by
    intro st' req' hm'
    rw [Part001.runRequest_marked env st' req' hm']
    cases hsend : env.send req' with
    | ok r => exact .inl ⟨r, by simp⟩
    | error e0 => exact .inr ⟨e0, by simp⟩
  by_cases hm : req.retryMark = true
  · exact hmshape st req hm
  · have hm' : req.retryMark = false := by simpa using hm
    have h := Part001.runRequest.eq_def env st req
    cases hsend : env.send req with
    | ok r =>
      rw [hsend] at h
      exact .inl ⟨r, by rw [h]⟩
    | error e0 =>
      rw [hsend] at h
      by_cases hc : (e0.code == some "ERR_NETWORK" || e0.code == some "ERR_NAME_NOT_RESOLVED")
          = true
      · simp only [hc, hm', Bool.not_false, Bool.and_true, dite_true] at h
        by_cases hw : (Part001.wakeUpServer env (Part001.getApiUrlWithFallback env st).2
            (some (Part001.getApiUrlWithFallback env st).1)).1 = true
        · rw [if_pos hw] at h
          rcases hmshape ((Part001.wakeUpServer env (Part001.getApiUrlWithFallback env st).2
                (some (Part001.getApiUrlWithFallback env st).1)).2.1)
              { url := req.url, baseURL := some (Part001.getApiUrlWithFallback env st).1,
                retryMark := true } rfl with ⟨r, hr⟩ | ⟨e1, he1⟩
          · exact .inl ⟨r, by rw [h]; simpa using hr⟩
          · exact .inr ⟨e1, by rw [h]; simpa using he1⟩
        · rw [if_neg hw] at h
          by_cases hne : (Part001.getApiUrlWithFallback env
              { cachedApiUrl := none, apiUrlChecked := false }).1 ≠
              (Part001.getApiUrlWithFallback env st).1
          · rw [if_pos hne] at h
            rcases hmshape ((Part001.getApiUrlWithFallback env
                  { cachedApiUrl := none, apiUrlChecked := false }).2)
                { url := replaceFirst req.url
                    (Part001.getApiUrlWithFallback env
                      { cachedApiUrl := none, apiUrlChecked := false }).1
                    (Part001.getApiUrlWithFallback env
                      { cachedApiUrl := none, apiUrlChecked := false }).1,
                  baseURL := some (Part001.getApiUrlWithFallback env
                    { cachedApiUrl := none, apiUrlChecked := false }).1,
                  retryMark := true } rfl with ⟨r, hr⟩ | ⟨e1, he1⟩
            · exact .inl ⟨r, by rw [h]; simpa using hr⟩
            · exact .inr ⟨e1, by rw [h]; simpa using he1⟩
          · rw [if_neg hne] at h
            exact .inr ⟨e0, by rw [h]⟩
      · simp only [hm', Bool.not_false, Bool.and_true] at h
        rw [dif_neg hc] at h
        exact .inr ⟨e0, by rw [h]⟩

/-- C8: every rejection produced by the part_001 pipeline carries a
userMessage derived from the error classification (network and DNS
failures get the connectivity message, HTTP error responses the
server-provided message or the error message, anything else the message
or the generic fallback), and the part_000 annotator attaches a
userMessage to every error according to its four-way classification,
including the timeout branch. -/
theorem C8_rejections_annotated :
    (∀ (env : Env) (st : UrlState) (req : Request),
      Part001.rejectionAnnotated (Part001.runRequest env st req).1) ∧
    (∀ e, (Part000.attachUserMessage e).userMessage.isSome = true ∧
      Part000.wellFormedUserMessage (Part000.attachUserMessage e)) := by
  constructor
  · intro env st req
    rcases runRequest_outcome_shape env st req with ⟨r, hr⟩ | ⟨e₀, he₀⟩
    · rw [hr]
      trivial
    · rw [he₀]
      exact part001_attach_wellFormed e₀
  · exact part000_attach_wellFormed

end FileMgmt
